import Mathlib

/-!
Verification of the encode-and-frame pipeline of
`h265_image_transport/src/h265_publisher.cpp` (the `H265Publisher::publish`
method) against its natural-language specification.

The C++ method is shallowly embedded below.  Machine integers are modelled
as `Int`/`Nat`; byte buffers as `List Nat`; the external libavcodec calls
(`av_pix_fmt_desc_get`, `av_get_bits_per_pixel`, `avcodec_open2`,
`avcodec_send_frame`, `avcodec_receive_packet`) are modelled as an oracle
environment `EncEnv` holding the results those calls return, so that the
repository's own control flow and data handling are what the theorems are
about.
-/

namespace H265ImageTransport

/-- `AV_NOPTS_VALUE` sentinel: `INT64_MIN`. -/
def AV_NOPTS_VALUE : Int := -(2 ^ 63)

/-- Pixel-format code for `AV_PIX_FMT_YUV420P` (the concrete numeral is
immaterial; the codes below are pairwise distinct tags). -/
def AV_PIX_FMT_YUV420P : Nat := 0

/-- Pixel-format code for `AV_PIX_FMT_RGB24`. -/
def AV_PIX_FMT_RGB24 : Nat := 2

/-- Pixel-format code for `AV_PIX_FMT_RGB0`. -/
def AV_PIX_FMT_RGB0 : Nat := 119

/-- `AVMEDIA_TYPE_VIDEO` tag. -/
def AVMEDIA_TYPE_VIDEO : Int := 0

/-- `AVERROR(EAGAIN)`: transient not-ready result of `avcodec_send_frame`. -/
def AVERROR_EAGAIN : Int := -11

/-- `AVERROR(EINVAL)`: invalid-argument result. -/
def AVERROR_EINVAL : Int := -22

/-- `AVERROR(ENOMEM)`: out-of-memory result. -/
def AVERROR_ENOMEM : Int := -12

/-- `AVERROR_EOF`: end-of-stream result (`FFERRTAG('E','O','F',' ')`). -/
def AVERROR_EOF : Int := -541478725

/-- One side-data entry of an `AVPacket` (`AVPacketSideData`): its `size`
and `type` fields, the bytes its `data` pointer points to (`sdBytes`), and
the raw memory bytes that sit at the *address of* the `data` pointer field
itself (`sdPtrRepr`) — the serializer at h265_publisher.cpp:371 reads from
`&side_data[i].data`, so both byte views are needed to model it. -/
structure AVSideData where
  sdSize : Nat
  sdType : Int
  sdBytes : List Nat
  sdPtrRepr : List Nat
deriving Repr, DecidableEq

/-- Model of the `AVPacket` fields read by `H265Publisher::publish`:
`buf->size`/`buf->data` (`bufSize`, `bufBytes`), the logical `size`, the
payload bytes the `data` pointer points to (`pktBytes`), the raw memory at
the *address of* the `data` pointer field (`dataPtrRepr`, read by the
`memcpy(&compressed.data[...], &avPacket->data, avPacket->size)` at
h265_publisher.cpp:333), `pts`, `dts`, `stream_index`, `flags`, the
side-data array, `duration` and `pos`. -/
structure AVPacketModel where
  bufSize : Nat
  bufBytes : List Nat
  pktSize : Nat
  pktBytes : List Nat
  dataPtrRepr : List Nat
  pts : Int
  dts : Int
  streamIndex : Int
  flags : Int
  sideData : List AVSideData
  duration : Int
  pos : Int
deriving Repr, DecidableEq

/-- The fields of `sensor_msgs::msg::Image` that `publish` reads. -/
structure ImageMsg where
  height : Nat
  width : Nat
  header : Nat
  data : List Nat
deriving Repr, DecidableEq

/-- The `AVCodecContext` fields that `publish` writes/reads. -/
structure CodecCtx where
  height : Nat
  width : Nat
  pixFmt : Nat
  codecType : Int
  timeBaseNum : Int
  timeBaseDen : Int
  framerateNum : Int
  framerateDen : Int
  gopSize : Int
  threadCount : Int
  maxBFrames : Int
  refs : Int
  swPixFmt : Nat
  preset : String
  crf : String
  opened : Bool
deriving Repr, DecidableEq

/-- Mutable members of `H265Publisher` touched by `publish`: the codec
context, `frameCount_`, `frameIdx`, and flags recording whether
`avInFrame_`, the `swsCtx_` and `avOutFrame_` have been allocated (with the
geometry they were allocated for). -/
structure PubState where
  ctx : CodecCtx
  frameCount : Int
  frameIdx : Int
  inFrameAlloc : Bool
  inFrameW : Nat
  inFrameH : Nat
  swsAlloc : Bool
  outFrameAlloc : Bool
deriving Repr, DecidableEq

/-- Oracle for the external libavcodec calls made during one `publish`
call: whether `av_pix_fmt_desc_get(AV_PIX_FMT_RGB24)` returns non-null,
the `av_get_bits_per_pixel` result, the `avcodec_open2` result, the result
of the first (discarded) `avcodec_send_frame` call, the results of the
successive `avcodec_send_frame` calls inside the retry loop, and the
successive `avcodec_receive_packet` results with the packet each one
fills in. -/
structure EncEnv where
  descOk : Bool
  bitsPerPixel : Int
  openResult : Int
  sendFirst : Int
  sendResps : List Int
  recvResults : List (Int × AVPacketModel)
deriving Repr

/-- The serialized envelope: a `sensor_msgs::msg::CompressedImage` with the
input message's header, format string `"h265"`, and the flat byte buffer. -/
structure Envelope where
  header : Nat
  format : String
  data : List Nat
deriving Repr, DecidableEq

/-- Little-endian bytes of the low `w` bytes of `v` (the effect of
`memcpy`-ing a `w`-byte two's-complement integer on a little-endian
machine). -/
def intLE (w : Nat) (v : Int) : List Nat :=
  (List.range w).map (fun i => ((v % ((2 : Int) ^ (8 * w))).toNat / 2 ^ (8 * i)) % 256)

/-- Bytes the serializer emits for one side-data entry
(h265_publisher.cpp:361-373): `size` as int32, `type` as int32, then
`size` bytes copied from `&side_data[i].data`, i.e. from the memory of the
pointer field itself, not from the pointed-to payload. -/
def sideDataRegion (sd : AVSideData) : List Nat :=
  intLE 4 sd.sdSize ++ intLE 4 sd.sdType ++ sd.sdPtrRepr.take sd.sdSize

/-- The byte count `size_data` computed at h265_publisher.cpp:311-316 and
passed to `compressed.data.resize`:
`4 + buf->size + 8 + 8 + size + 4 + 4 + 4 + side_data_elems + 8 + 8`
plus, per side-data entry, `entry.size + 4 + 4`.  Note the bare
`+ side_data_elems` term. -/
def sizeData (p : AVPacketModel) : Nat :=
  4 + p.bufSize + 8 + 8 + p.pktSize + 4 + 4 + 4 + p.sideData.length + 8 + 8
    + (p.sideData.map (fun sd => sd.sdSize + 4 + 4)).sum

/-- The exact byte sequence the `memcpy` chain at h265_publisher.cpp:321-380
writes into `compressed.data`, in order: `buf->size` (int32), the
`buf->size` bytes at `buf->data`, `size` (int32), then `size` bytes copied
from `&avPacket->data` (the address of the data pointer — line 333), `pts`
(int64), `dts` (int64), `stream_index` (int32), `flags` (int32),
`side_data_elems` (int32), each side-data entry, `duration` (int64), `pos`
(int64). -/
def envelopeBytes (p : AVPacketModel) : List Nat :=
  intLE 4 p.bufSize ++ p.bufBytes.take p.bufSize
    ++ intLE 4 p.pktSize ++ p.dataPtrRepr.take p.pktSize
    ++ intLE 8 p.pts ++ intLE 8 p.dts
    ++ intLE 4 p.streamIndex ++ intLE 4 p.flags
    ++ intLE 4 p.sideData.length
    ++ (p.sideData.map sideDataRegion).flatten
    ++ intLE 8 p.duration ++ intLE 8 p.pos

/-- The `CompressedImage` built for one drained packet
(h265_publisher.cpp:309-386): header copied from the input message,
format `"h265"`, data as serialized by the memcpy chain. -/
def mkEnvelope (msg : ImageMsg) (p : AVPacketModel) : Envelope :=
  { header := msg.header, format := "h265", data := envelopeBytes p }

/-- Models libav's `av_rescale_rnd(a, b, c, AV_ROUND_NEAR_INF)` for the
nonnegative-`a` case: `(a*b + c/2) / c` (round to nearest, operands
nonnegative in every use below, where C truncation coincides with
Euclidean division). -/
def avRescaleNearNonneg (a b c : Int) : Int := (a * b + c / 2) / c

/-- Models libav's `av_rescale(a, b, c)` (`AV_ROUND_NEAR_INF` rounding,
halves rounded away from zero, negatives handled by negating). -/
def av_rescale (a b c : Int) : Int :=
  if a < 0 then -avRescaleNearNonneg (-a) b c else avRescaleNearNonneg a b c

/-- Models libav's `av_rescale_q(a, bq, cq) = av_rescale(a, bq.num *
cq.den, cq.num * bq.den)`. -/
def av_rescale_q (a bqNum bqDen cqNum cqDen : Int) : Int :=
  av_rescale a (bqNum * cqDen) (cqNum * bqDen)

/-- The timestamp-rescale step at h265_publisher.cpp:289-304: a `pts`/`dts`
equal to `AV_NOPTS_VALUE` is skipped; any other value is rescaled with
`av_rescale_q` from `context_->time_base` to `context_->time_base`
(identical input and output timebases). -/
def rescalePacket (tbNum tbDen : Int) (p : AVPacketModel) : AVPacketModel :=
  let p1 := if p.pts ≠ AV_NOPTS_VALUE
    then { p with pts := av_rescale_q p.pts tbNum tbDen tbNum tbDen } else p
  if p1.dts ≠ AV_NOPTS_VALUE
    then { p1 with dts := av_rescale_q p1.dts tbNum tbDen tbNum tbDen } else p1

/-- The submit-retry loop at h265_publisher.cpp:245-269: `ret` is forced to
`-1`, then `avcodec_send_frame` is called repeatedly; the loop exits only
when a call returns `0` (every nonzero result — `EAGAIN`, `AVERROR_EOF`,
`EINVAL`, `ENOMEM` and the default case — leads to `continue`).  Given the
successive results the encoder returns, this yields the number of loop
calls up to and including the first `0`, or `none` if no result is ever
`0` (the real loop then spins forever). -/
def loopSends : List Int → Option Nat
  | [] => none
  | r :: rs => if r = 0 then some 1 else (loopSends rs).map (· + 1)

/-- The drain loop at h265_publisher.cpp:273-389: starting from `ret = 0`,
it repeatedly calls `avcodec_receive_packet` and serializes/publishes the
received packet while `ret >= 0`; the first negative result ends the loop.
Given the successive receive results, this is the list of packets the loop
publishes, in drain order. -/
def drainPackets : List (Int × AVPacketModel) → List AVPacketModel
  | [] => []
  | (r, p) :: rest => if 0 ≤ r then p :: drainPackets rest else []

/-- Result of one `publish` call: the publisher state afterwards, whether
the configuration block ran, the `pts` the submitted frame was tagged with
(`none` when the call returned before reaching the encode step), how many
`avcodec_send_frame` calls were made in total, whether the submit-retry
loop terminated, the drained packets after the rescale step (in publish
order) and the serialized envelopes handed to `publish_fn` (in publish
order). -/
structure PubResult where
  state : PubState
  ranConfig : Bool
  submitted : Option Int
  sendCalls : Nat
  terminated : Bool
  drained : List AVPacketModel
  outputs : List Envelope
deriving Repr, DecidableEq

/-- The configuration assignments at h265_publisher.cpp:115-151, executed
(in source order, before any of the failure checks) when
`context_->height == 0`: geometry from the message, `pix_fmt` and
`sw_pix_fmt` to YUV420P, time base 1/30, framerate 30/1, `gop_size = 60`,
`thread_count = 5`, `max_b_frames` set to 0 then overwritten with 3,
`refs = 3`, preset `"ultrafast"`, crf `"35"`. -/
def configCtx (msg : ImageMsg) (c : CodecCtx) : CodecCtx :=
  { c with
    height := msg.height
    width := msg.width
    pixFmt := AV_PIX_FMT_YUV420P
    codecType := AVMEDIA_TYPE_VIDEO
    timeBaseNum := 1
    timeBaseDen := 30
    framerateNum := 30
    framerateDen := 1
    gopSize := 60
    threadCount := 5
    maxBFrames := 3
    refs := 3
    swPixFmt := AV_PIX_FMT_YUV420P
    preset := "ultrafast"
    crf := "35" }

/-- Result of an early `return` inside the configuration block: no frame
submitted, nothing drained, nothing published — but the state mutations
already made are kept (the context is a member of the publisher). -/
def earlyResult (ran : Bool) (s : PubState) : PubResult :=
  { state := s, ranConfig := ran, submitted := none, sendCalls := 0,
    terminated := true, drained := [], outputs := [] }

/-- The encode body of `publish` (h265_publisher.cpp:212-390): copy/scale
the image into the working frames, tag the output frame with
`frameCount_++` as `pts`, call `avcodec_send_frame` once (result
discarded), run the submit-retry loop, then drain packets, rescaling each
and publishing its envelope.  When the retry loop never sees a `0` result
the real code spins forever; this is modelled by `terminated = false` with
no drained packets. -/
def publishBody (env : EncEnv) (msg : ImageMsg) (ran : Bool) (s : PubState) : PubResult :=
  let pts := s.frameCount
  let s1 : PubState := { s with frameCount := s.frameCount + 1 }
  match loopSends env.sendResps with
  | none =>
      { state := s1, ranConfig := ran, submitted := some pts,
        sendCalls := 0, terminated := false, drained := [], outputs := [] }
  | some n =>
      let s2 : PubState := { s1 with frameIdx := (s1.frameIdx % s1.ctx.framerateNum) + 1 }
      let pkts := (drainPackets env.recvResults).map
        (rescalePacket s.ctx.timeBaseNum s.ctx.timeBaseDen)
      { state := s2, ranConfig := ran, submitted := some pts,
        sendCalls := 1 + n, terminated := true, drained := pkts,
        outputs := pkts.map (mkEnvelope msg) }

/-- Shallow embedding of `H265Publisher::publish`
(h265_publisher.cpp:106-391).  Under the lock: if `context_->height == 0`
the configuration block runs — it first performs all the assignments of
`configCtx`, then checks the pixel-format descriptor, the bytes-per-pixel
condition `bits/8 == 3 && bits % 8 == 0`, and `avcodec_open2`; any failure
`return`s early (keeping the already-mutated context).  On success the
working frames and scaling context are allocated and the encode body runs;
when the height guard is nonzero the configuration block is skipped
entirely and the body runs directly. -/
def publish (env : EncEnv) (msg : ImageMsg) (s : PubState) : PubResult :=
  if s.ctx.height = 0 then
    let s1 : PubState := { s with ctx := configCtx msg s.ctx }
    if ¬env.descOk then earlyResult true s1
    else if ¬(env.bitsPerPixel / 8 = 3 ∧ env.bitsPerPixel % 8 = 0) then earlyResult true s1
    else if env.openResult < 0 then earlyResult true s1
    else
      let s2 : PubState :=
        { s1 with
          ctx := { s1.ctx with opened := true }
          inFrameAlloc := true
          inFrameW := msg.width
          inFrameH := msg.height
          swsAlloc := true
          outFrameAlloc := true }
      publishBody env msg true s2
  else publishBody env msg false s

/-- A sequence of `publish` calls, each with its own oracle environment and
message, threading the publisher state; the second component is the full
sequence of envelopes handed to the publish sink, in emission order. -/
def publishMany : List (EncEnv × ImageMsg) → PubState → PubState × List Envelope
  | [], s => (s, [])
  | (e, m) :: rest, s =>
    let r := publish e m s
    let res := publishMany rest r.state
    (res.1, r.outputs ++ res.2)

/-- Events observable at the encoder/sink boundary during one call:
submission of a frame with a given `pts`, or emission of an envelope to the
publish sink. -/
inductive PubEvent where
  | submit (pts : Int)
  | emit (e : Envelope)
deriving Repr, DecidableEq

/-- The ordered event trace of one `publish` call: the frame submission (if
the call got that far) followed by the envelope emissions, which all happen
before the call returns. -/
def publishEvents (env : EncEnv) (msg : ImageMsg) (s : PubState) : List PubEvent :=
  match (publish env msg s).submitted with
  | none => []
  | some pts => PubEvent.submit pts :: (publish env msg s).outputs.map PubEvent.emit

/-- The ordered event trace of a sequence of `publish` calls. -/
def publishManyEvents : List (EncEnv × ImageMsg) → PubState → List PubEvent
  | [], _ => []
  | (e, m) :: rest, s => publishEvents e m s ++ publishManyEvents rest (publish e m s).state

/-! Concrete inputs used to evaluate the embedded code. -/

/-- A codec context as left by the constructor: nothing configured,
`height = 0` (the "not yet configured" sentinel). -/
def ctx0 : CodecCtx :=
  { height := 0, width := 0, pixFmt := 0, codecType := 0,
    timeBaseNum := 0, timeBaseDen := 1, framerateNum := 1, framerateDen := 1,
    gopSize := 0, threadCount := 0, maxBFrames := 0, refs := 0,
    swPixFmt := 0, preset := "", crf := "", opened := false }

/-- A freshly constructed publisher: unconfigured context, `frameCount_ = 0`,
no working buffers allocated. -/
def freshState : PubState :=
  { ctx := ctx0, frameCount := 0, frameIdx := 0,
    inFrameAlloc := false, inFrameW := 0, inFrameH := 0,
    swsAlloc := false, outFrameAlloc := false }

/-- A concrete encoder packet: one buffer byte `5`, logical payload `[7]`,
pointer-field memory starting with byte `9`, `pts = dts = 0`. -/
def pktR : AVPacketModel :=
  { bufSize := 1, bufBytes := [5], pktSize := 1, pktBytes := [7],
    dataPtrRepr := [9, 0, 0, 0, 0, 0, 0, 0],
    pts := 0, dts := 0, streamIndex := 0, flags := 0, sideData := [],
    duration := 0, pos := -1 }

/-- Oracle in which every external call succeeds: descriptor resolved,
`24` bits per pixel, `avcodec_open2` returns `0`, the retry loop's first
send returns `0`, and the drain yields one packet (`pktR`) and then
`EAGAIN`. -/
def envOK : EncEnv :=
  { descOk := true, bitsPerPixel := 24, openResult := 0,
    sendFirst := AVERROR_EAGAIN, sendResps := [0],
    recvResults := [(0, pktR), (AVERROR_EAGAIN, pktR)] }

/-- Oracle in which `avcodec_open2` fails (returns `-1`); everything before
it succeeds. -/
def envOpenFail : EncEnv :=
  { descOk := true, bitsPerPixel := 24, openResult := -1,
    sendFirst := 0, sendResps := [0], recvResults := [] }

/-- A 3×3 image: odd width and odd height. -/
def msg33 : ImageMsg := { height := 3, width := 3, header := 0, data := [] }

/-- A 4×4 image. -/
def msg44 : ImageMsg := { height := 4, width := 4, header := 0, data := [] }

/-- A 64×64 image (the spec's scenario input). -/
def msg64 : ImageMsg := { height := 64, width := 64, header := 7, data := [] }

/-- The publisher state after one successful first `publish` call on a
64×64 frame: configured, `frameCount_ = 1`. -/
def confState : PubState := (publish envOK msg64 freshState).state

/-- Packet with no side data and an empty buffer/payload. -/
def pktC6zero : AVPacketModel :=
  { bufSize := 0, bufBytes := [], pktSize := 0, pktBytes := [],
    dataPtrRepr := [], pts := 0, dts := 0, streamIndex := 0, flags := 0,
    sideData := [], duration := 0, pos := 0 }

/-- Packet whose payload bytes `[7]` differ from the first byte (`9`) of
the memory at the address of its `data` pointer field. -/
def pktC1 : AVPacketModel :=
  { bufSize := 0, bufBytes := [], pktSize := 1, pktBytes := [7],
    dataPtrRepr := [9, 0, 0, 0, 0, 0, 0, 0],
    pts := 0, dts := 0, streamIndex := 0, flags := 0, sideData := [],
    duration := 0, pos := 0 }

/-- Packet with one buffer byte, one payload byte and no side data. -/
def pktC2 : AVPacketModel :=
  { bufSize := 1, bufBytes := [5], pktSize := 1, pktBytes := [7],
    dataPtrRepr := [9, 0, 0, 0, 0, 0, 0, 0],
    pts := 0, dts := 0, streamIndex := 0, flags := 0, sideData := [],
    duration := 0, pos := 0 }

/-- Side-data entry of size 4 whose payload bytes `[1,2,3,4]` differ from
the memory bytes `[9,9,9,9]` at the address of its `data` pointer field. -/
def sdC6 : AVSideData :=
  { sdSize := 4, sdType := 5, sdBytes := [1, 2, 3, 4],
    sdPtrRepr := [9, 9, 9, 9, 0, 0, 0, 0] }

/-- Packet carrying the single side-data entry `sdC6` and nothing else. -/
def pktC6 : AVPacketModel :=
  { bufSize := 0, bufBytes := [], pktSize := 0, pktBytes := [],
    dataPtrRepr := [], pts := 0, dts := 0, streamIndex := 0, flags := 0,
    sideData := [sdC6], duration := 0, pos := 0 }

/-! The claims. -/

/-- C1: the claim says field 4 of the envelope (the `payloadSize` bytes
following the `payloadSize` field) is the packet payload itself, the bytes
pointed to by the packet's `data` pointer.  The code at
h265_publisher.cpp:333 instead copies from `&avPacket->data` — the address
of the pointer field — so for `pktC1` (payload `[7]`, pointer-field memory
starting `9`) the field-4 region of the envelope (offset 8 = 4 byte
`buf->size` field + 0 buffer bytes + 4 byte `size` field) holds the
pointer-representation byte `[9]`, not the payload `[7]`.  This refutes the
claim on the code and exhibits the defect the spec's §9 flags. -/
theorem C1_payload_field_holds_pointer_bytes_not_payload :
    ((envelopeBytes pktC1).drop 8).take pktC1.pktSize
        = pktC1.dataPtrRepr.take pktC1.pktSize ∧
    pktC1.pktBytes = [7] ∧
    ((envelopeBytes pktC1).drop 8).take pktC1.pktSize ≠ pktC1.pktBytes := by
  decide

/-- C2: the claim says the destination buffer is resized to
`4 + bufferCapacity + 4 + payloadSize + 8 + 8 + 4 + 4 + 4 +
Σ(4 + 4 + entrySize) + 8 + 8` bytes, which also equals the number of bytes
written, with no copy past that bound.  For `pktC2` (bufferCapacity 1,
payloadSize 1, no side data) that formula gives 54 and the writer does
write 54 bytes, but the code's up-front `size_data`
(h265_publisher.cpp:311) computes only 50 — it adds the bare
`side_data_elems` count where the claim's formula has the 4-byte count
field — so `compressed.data` is resized 4 bytes short and the final
`memcpy`s run past the end of the buffer. -/
theorem C2_resize_shorter_than_bytes_written :
    (envelopeBytes pktC2).length = 54 ∧
    sizeData pktC2 = 50 ∧
    sizeData pktC2 < (envelopeBytes pktC2).length := by
  decide

/-- C6: the claim says each serialized side-data entry is its size (int32),
its type (int32), then exactly `size` bytes that are the entry's payload
bytes, and that sizes/types/bytes round-trip.  For `pktC6` (one entry,
size 4, type 5, payload `[1,2,3,4]`, pointer-field memory `[9,9,9,9,...]`)
the entry region of the envelope starts at offset 32 (count field), with
the size field at 36, the type field at 40 and the entry bytes at 44; the
size and type fields and the zero-count case match the claim, but the
entry bytes are `[9,9,9,9]` — copied from `&side_data[i].data`
(h265_publisher.cpp:371), the address of the pointer field — not the
payload `[1,2,3,4]`, so the bytes cannot round-trip. -/
theorem C6_side_data_bytes_hold_pointer_bytes_not_payload :
    ((envelopeBytes pktC6).drop 32).take 4 = intLE 4 1 ∧
    ((envelopeBytes pktC6).drop 36).take 4 = intLE 4 4 ∧
    ((envelopeBytes pktC6).drop 40).take 4 = intLE 4 5 ∧
    ((envelopeBytes pktC6).drop 44).take 4 = [9, 9, 9, 9] ∧
    sdC6.sdBytes = [1, 2, 3, 4] ∧
    ((envelopeBytes pktC6).drop 44).take 4 ≠ sdC6.sdBytes ∧
    ((envelopeBytes pktC6zero).drop 32).take 4 = intLE 4 0 ∧
    (envelopeBytes pktC6zero).length = 52 := by
  decide

/-- The encode body reports `ranConfig` exactly as instructed. -/
theorem publishBody_ranConfig (env : EncEnv) (msg : ImageMsg) (ran : Bool) (s : PubState) :
    (publishBody env msg ran s).ranConfig = ran := by
  unfold publishBody
  cases h : loopSends env.sendResps <;> simp

/-- The encode body never touches the codec context, the allocation flags
or the allocated geometry; it bumps `frameCount_` by exactly one and tags
the submitted frame with the old `frameCount_` value. -/
theorem publishBody_state_fields (env : EncEnv) (msg : ImageMsg) (ran : Bool) (s : PubState) :
    (publishBody env msg ran s).state.ctx = s.ctx ∧
    (publishBody env msg ran s).state.inFrameAlloc = s.inFrameAlloc ∧
    (publishBody env msg ran s).state.inFrameW = s.inFrameW ∧
    (publishBody env msg ran s).state.inFrameH = s.inFrameH ∧
    (publishBody env msg ran s).state.swsAlloc = s.swsAlloc ∧
    (publishBody env msg ran s).state.outFrameAlloc = s.outFrameAlloc ∧
    (publishBody env msg ran s).state.frameCount = s.frameCount + 1 ∧
    (publishBody env msg ran s).submitted = some s.frameCount := by
  unfold publishBody
  cases h : loopSends env.sendResps <;> simp

/-- When the submit-retry loop terminates after `n` sends, the body's
drain output is the received packets (rescaled) in drain order, its
published envelopes are their serializations in the same order, and
`avcodec_send_frame` was called `1 + n` times. -/
theorem publishBody_drain (env : EncEnv) (msg : ImageMsg) (ran : Bool) (s : PubState)
    (n : Nat) (hterm : loopSends env.sendResps = some n) :
    (publishBody env msg ran s).drained
        = (drainPackets env.recvResults).map
            (rescalePacket s.ctx.timeBaseNum s.ctx.timeBaseDen) ∧
    (publishBody env msg ran s).outputs
        = (publishBody env msg ran s).drained.map (mkEnvelope msg) ∧
    (publishBody env msg ran s).sendCalls = 1 + n := by
  unfold publishBody
  rw [hterm]
  exact ⟨rfl, rfl, rfl⟩

/-- With a nonzero stored height the configuration block is skipped and
`publish` is exactly the encode body. -/
theorem publish_configured (env : EncEnv) (msg : ImageMsg) (s : PubState)
    (hh : ¬s.ctx.height = 0) :
    publish env msg s = publishBody env msg false s := by
  unfold publish
  rw [if_neg hh]

/-- Any call entered with a nonzero stored height reports that the
configuration block did not run. -/
theorem publish_skip_ranConfig (env : EncEnv) (msg : ImageMsg) (s : PubState)
    (hh : ¬s.ctx.height = 0) :
    (publish env msg s).ranConfig = false := by
  rw [publish_configured env msg s hh]
  exact publishBody_ranConfig env msg false s

/-- Once the stored height is nonzero, any sequence of further `publish`
calls leaves the codec context unchanged. -/
theorem publishMany_ctx (calls : List (EncEnv × ImageMsg)) (s : PubState)
    (hh : ¬s.ctx.height = 0) :
    (publishMany calls s).1.ctx = s.ctx := by
  induction calls generalizing s with
  | nil => rfl
  | cons c rest ih =>
    obtain ⟨e, m⟩ := c
    have h1 : (publish e m s).state.ctx = s.ctx := by
      rw [publish_configured e m s hh]
      exact (publishBody_state_fields e m false s).1
    have h2 : ¬(publish e m s).state.ctx.height = 0 := by rw [h1]; exact hh
    calc (publishMany ((e, m) :: rest) s).1.ctx
        = (publishMany rest (publish e m s).state).1.ctx := rfl
      _ = (publish e m s).state.ctx := ih (publish e m s).state h2
      _ = s.ctx := h1

/-- C5: once the session is configured (stored height nonzero), every
subsequent `publish` call skips the configuration block (`ranConfig`
false), the codec context — carrying width, height, pixel format, time
base, framerate, gop size, thread count, max B-frames, refs, preset and
crf — is unchanged, none of the working-frame/scaling-context allocations
or their geometry change, and over any sequence of further calls the
context keeps its value. -/
theorem C5_configuration_idempotent (env : EncEnv) (msg : ImageMsg) (s : PubState)
    (hh : ¬s.ctx.height = 0) :
    (publish env msg s).ranConfig = false ∧
    (publish env msg s).state.ctx = s.ctx ∧
    (publish env msg s).state.inFrameAlloc = s.inFrameAlloc ∧
    (publish env msg s).state.inFrameW = s.inFrameW ∧
    (publish env msg s).state.inFrameH = s.inFrameH ∧
    (publish env msg s).state.swsAlloc = s.swsAlloc ∧
    (publish env msg s).state.outFrameAlloc = s.outFrameAlloc ∧
    ∀ calls : List (EncEnv × ImageMsg), (publishMany calls s).1.ctx = s.ctx := by
  rw [publish_configured env msg s hh]
  obtain ⟨h1, h2, h3, h4, h5, h6, _, _⟩ := publishBody_state_fields env msg false s
  exact ⟨publishBody_ranConfig env msg false s, h1, h2, h3, h4, h5, h6,
    fun calls => publishMany_ctx calls s hh⟩

/-- C5 witness: the configured state after a first 64×64 publish has
nonzero height, and a further call on it leaves the context unchanged. -/
theorem C5_witness :
    ¬confState.ctx.height = 0 ∧
    (publish envOK msg64 confState).state.ctx = confState.ctx := by
  refine ⟨by decide, ?_⟩
  exact (C5_configuration_idempotent envOK msg64 confState (by decide)).2.1

/-- C3: the claim says a first publish call with odd width or height fails
with a configuration error, no encoder is opened and no configuration is
retained.  The code's configuration block (guarded only by
`context_->height == 0`, with the parity requirement present only as the
comment at h265_publisher.cpp:112) contains no parity check: on a 3×3
first frame it stores width 3 and height 3 into the context, passes the
descriptor and bytes-per-pixel checks, and calls `avcodec_open2` — when
that external call succeeds the encoder is opened, the frame is submitted
and an envelope is published; even when it fails, the 3×3 configuration
remains stored. -/
theorem C3_odd_dimensions_not_rejected :
    (publish envOK msg33 freshState).ranConfig = true ∧
    (publish envOK msg33 freshState).state.ctx.height = 3 ∧
    (publish envOK msg33 freshState).state.ctx.width = 3 ∧
    (publish envOK msg33 freshState).state.ctx.opened = true ∧
    (publish envOK msg33 freshState).submitted = some 0 ∧
    (publish envOK msg33 freshState).outputs ≠ [] ∧
    (publish envOpenFail msg33 freshState).state.ctx.height = 3 ∧
    (publish envOpenFail msg33 freshState).state.ctx.width = 3 := by
  decide

/-- C4 counterexample: on a first 4×4 publish call in which
`avcodec_open2` fails, the call indeed produces no output, but the
configuration guard is NOT unchanged: the stored height was already set to
4 before the failing check, so the next call skips configuration instead
of retrying it — refuting the claim at this concrete input. -/
theorem C4_counterexample_guard_set_despite_failure :
    (publish envOpenFail msg44 freshState).outputs = [] ∧
    (publish envOpenFail msg44 freshState).submitted = none ∧
    freshState.ctx.height = 0 ∧
    (publish envOpenFail msg44 freshState).state.ctx.height = 4 ∧
    (publish envOpenFail msg44 (publish envOpenFail msg44 freshState).state).ranConfig
      = false := by
  decide

/-- C4 amended: a configuration-time failure (descriptor unresolved,
bytes-per-pixel check failed, or encoder open failed) aborts the call with
no frame submitted and no output, but the configuration guard has already
been set: the stored height equals the frame's height, so a subsequent
call attempts configuration again only when that height was 0. -/
theorem C4_config_failure_aborts_but_sets_guard (env : EncEnv) (msg : ImageMsg)
    (s : PubState) (h0 : s.ctx.height = 0)
    (hfail : env.descOk = false ∨
      ¬(env.bitsPerPixel / 8 = 3 ∧ env.bitsPerPixel % 8 = 0) ∨
      env.openResult < 0) :
    (publish env msg s).outputs = [] ∧
    (publish env msg s).submitted = none ∧
    (publish env msg s).state.ctx.height = msg.height ∧
    (¬msg.height = 0 → ∀ (env2 : EncEnv) (msg2 : ImageMsg),
        (publish env2 msg2 (publish env msg s).state).ranConfig = false) := by
  have hstep : publish env msg s = earlyResult true { s with ctx := configCtx msg s.ctx } := by
    unfold publish
    rw [if_pos h0]
    rcases hfail with hd | hb | ho
    · rw [if_pos (by simp [hd])]
    · by_cases hd2 : env.descOk
      · rw [if_neg (by simp [hd2]), if_pos hb]
      · rw [if_pos (by simp [hd2])]
    · by_cases hd2 : env.descOk
      · by_cases hb2 : env.bitsPerPixel / 8 = 3 ∧ env.bitsPerPixel % 8 = 0
        · rw [if_neg (by simp [hd2]), if_neg (by simp [hb2]), if_pos ho]
        · rw [if_neg (by simp [hd2]), if_pos hb2]
      · rw [if_pos (by simp [hd2])]
  rw [hstep]
  refine ⟨rfl, rfl, by simp [earlyResult, configCtx], ?_⟩
  intro hm env2 msg2
  apply publish_skip_ranConfig
  simp [earlyResult, configCtx]
  exact hm

/-- C4 witness: the amended statement at the concrete failing-open input. -/
theorem C4_witness :
    (publish envOpenFail msg44 freshState).outputs = [] ∧
    (publish envOpenFail msg44 freshState).state.ctx.height = msg44.height := by
  have h := C4_config_failure_aborts_but_sets_guard envOpenFail msg44 freshState
    (by decide) (Or.inr (Or.inr (by decide)))
  exact ⟨h.1, h.2.2.1⟩

/-- `av_rescale` with equal multiplier and divisor is the identity
(round-to-nearest of `a * k / k`). -/
theorem av_rescale_self (a k : Int) (hk : 0 < k) : av_rescale a k k = a := by
  have key : ∀ b : Int, 0 ≤ b → avRescaleNearNonneg b k k = b := by
    intro b hb
    unfold avRescaleNearNonneg
    have h2 : 0 ≤ k / 2 := Int.ediv_nonneg (le_of_lt hk) (by norm_num)
    have h3 : k / 2 < k := by
      rw [Int.ediv_lt_iff_lt_mul (by norm_num)]
      omega
    rw [add_comm, Int.add_mul_ediv_right _ _ (ne_of_gt hk),
      Int.ediv_eq_zero_of_lt h2 h3, zero_add]
  unfold av_rescale
  by_cases ha : a < 0
  · rw [if_pos ha, key (-a) (by omega)]
    ring
  · rw [if_neg ha, key a (by omega)]

/-- `av_rescale_q` between two copies of the same timebase is the
identity. -/
theorem av_rescale_q_self (a n d : Int) (hn : 0 < n) (hd : 0 < d) :
    av_rescale_q a n d n d = a := by
  unfold av_rescale_q
  exact av_rescale_self a (n * d) (mul_pos hn hd)

/-- The whole rescale step is the identity on every packet — sentinel
timestamps are skipped by the guard, all others are rescaled between
identical timebases. -/
theorem rescalePacket_id (n d : Int) (hn : 0 < n) (hd : 0 < d) (p : AVPacketModel) :
    rescalePacket n d p = p := by
  unfold rescalePacket
  by_cases h1 : p.pts ≠ AV_NOPTS_VALUE <;> by_cases h2 : p.dts ≠ AV_NOPTS_VALUE <;>
    simp [h1, h2, av_rescale_q_self _ n d hn hd]

/-- C8: the timestamp-rescale step of the drain loop is an identity: a
`pts`/`dts` equal to the `AV_NOPTS_VALUE` sentinel is left untouched by
the guard, and any other value is unchanged because the input and output
timebases passed to `av_rescale_q` are the same (`context_->time_base`
twice); consequently, for a configured session whose timebase is positive,
the packets serialized into envelopes are exactly the encoder-assigned
packets — drain order, `pts` and `dts` included. -/
theorem C8_rescale_is_identity (tbNum tbDen : Int) (hn : 0 < tbNum) (hd : 0 < tbDen) :
    (∀ p : AVPacketModel, rescalePacket tbNum tbDen p = p) ∧
    (∀ a : Int, av_rescale_q a tbNum tbDen tbNum tbDen = a) ∧
    (∀ (env : EncEnv) (msg : ImageMsg) (s : PubState) (n : Nat),
      s.ctx.timeBaseNum = tbNum → s.ctx.timeBaseDen = tbDen →
      ¬s.ctx.height = 0 → loopSends env.sendResps = some n →
      (publish env msg s).drained = drainPackets env.recvResults ∧
      (publish env msg s).outputs = (drainPackets env.recvResults).map (mkEnvelope msg)) := by
  refine ⟨rescalePacket_id tbNum tbDen hn hd,
    fun a => av_rescale_q_self a tbNum tbDen hn hd, ?_⟩
  intro env msg s n hsn hsd hh hterm
  rw [publish_configured env msg s hh]
  obtain ⟨hdr, hout, _⟩ := publishBody_drain env msg false s n hterm
  rw [hsn, hsd] at hdr
  have hmap : (drainPackets env.recvResults).map (rescalePacket tbNum tbDen)
      = drainPackets env.recvResults :=
    List.map_id'' (rescalePacket_id tbNum tbDen hn hd) _
  rw [hmap] at hdr
  exact ⟨hdr, by rw [hout, hdr]⟩

/-- C8 witness: with the configured 1/30 timebase, a packet with `pts = 0`
and `dts = -9` passes through the rescale step unchanged, and the
configured session serializes exactly the drained packets. -/
theorem C8_witness :
    rescalePacket 1 30
        { pktR with pts := 0, dts := -9 } = { pktR with pts := 0, dts := -9 } ∧
    (publish envOK msg64 confState).drained = drainPackets envOK.recvResults := by
  have h := C8_rescale_is_identity 1 30 (by norm_num) (by norm_num)
  refine ⟨h.1 _, ?_⟩
  exact (h.2.2 envOK msg64 confState 1 (by decide) (by decide) (by decide) (by decide)).1

/-- C7: the frame submitted by a call is tagged with the session's frame
counter as `pts`, and the counter is post-incremented exactly once per
call — so the N-th call (counting from 0) submits `pts = N` and a fresh
pipeline's first frame carries `pts = 0`.  On a single 64×64 first frame
with all external calls succeeding, the session is configured with width
64, height 64 and pixel format YUV420P, and any packet the encoder
delivers to the drain with `pts = 0` is published as an envelope. -/
theorem C7_pts_is_frame_counter (env : EncEnv) (msg : ImageMsg) (s : PubState)
    (p0 : AVPacketModel) (n : Nat)
    (h0 : s.ctx.height = 0) (hf : s.frameCount = 0)
    (hw : msg.width = 64) (hhgt : msg.height = 64)
    (hdesc : env.descOk = true) (hbpp : env.bitsPerPixel = 24)
    (hopen : 0 ≤ env.openResult)
    (hterm : loopSends env.sendResps = some n)
    (hp : p0 ∈ drainPackets env.recvResults) (hpts : p0.pts = 0) :
    (publish env msg s).state.ctx.width = 64 ∧
    (publish env msg s).state.ctx.height = 64 ∧
    (publish env msg s).state.ctx.pixFmt = AV_PIX_FMT_YUV420P ∧
    (publish env msg s).submitted = some 0 ∧
    (publish env msg s).state.frameCount = 1 ∧
    (∀ (env2 : EncEnv) (msg2 : ImageMsg) (s2 : PubState), ¬s2.ctx.height = 0 →
      (publish env2 msg2 s2).submitted = some s2.frameCount ∧
      (publish env2 msg2 s2).state.frameCount = s2.frameCount + 1) ∧
    p0 ∈ (publish env msg s).drained ∧
    p0.pts = 0 ∧
    mkEnvelope msg p0 ∈ (publish env msg s).outputs := by
  have hstep : publish env msg s = publishBody env msg true
      { s with
        ctx := { configCtx msg s.ctx with opened := true }
        inFrameAlloc := true
        inFrameW := msg.width
        inFrameH := msg.height
        swsAlloc := true
        outFrameAlloc := true } := by
    unfold publish
    rw [if_pos h0, if_neg (by simp [hdesc]), if_neg (by rw [hbpp]; norm_num),
      if_neg (by omega)]
  rw [hstep]
  obtain ⟨hctx, _, _, _, _, _, hfc, hsub⟩ := publishBody_state_fields env msg true _
  obtain ⟨hdr, hout, _⟩ := publishBody_drain env msg true _ n hterm
  have hmap : (drainPackets env.recvResults).map (rescalePacket 1 30)
      = drainPackets env.recvResults :=
    List.map_id'' (rescalePacket_id 1 30 (by norm_num) (by norm_num)) _
  have hdr2 : (publishBody env msg true
      { s with
        ctx := { configCtx msg s.ctx with opened := true }
        inFrameAlloc := true
        inFrameW := msg.width
        inFrameH := msg.height
        swsAlloc := true
        outFrameAlloc := true }).drained = drainPackets env.recvResults := by
    rw [hdr]
    simp only [configCtx]
    exact hmap
  refine ⟨by rw [hctx]; simp [configCtx, hw], by rw [hctx]; simp [configCtx, hhgt],
    by rw [hctx]; simp [configCtx], by rw [hsub]; simp [hf], by rw [hfc]; simp [hf],
    ?_, ?_, hpts, ?_⟩
  · intro env2 msg2 s2 hh2
    rw [publish_configured env2 msg2 s2 hh2]
    obtain ⟨_, _, _, _, _, _, hfc2, hsub2⟩ := publishBody_state_fields env2 msg2 false s2
    exact ⟨hsub2, hfc2⟩
  · rw [hdr2]
    exact hp
  · rw [hout, hdr2]
    exact List.mem_map_of_mem (mkEnvelope msg) hp

/-- C7 witness: the concrete scenario — fresh state, 64×64 frame, the
all-good oracle whose drain yields `pktR` with `pts = 0`. -/
theorem C7_witness :
    (publish envOK msg64 freshState).submitted = some 0 ∧
    pktR ∈ (publish envOK msg64 freshState).drained := by
  have h := C7_pts_is_frame_counter envOK msg64 freshState pktR 1
    (by decide) (by decide) (by decide) (by decide) (by decide) (by decide)
    (by decide) (by decide) (by decide) (by decide)
  exact ⟨h.2.2.2.1, h.2.2.2.2.2.2.1⟩

/-- On every path through `publish`, the envelopes handed to the sink are
exactly the serializations of the drained packets, in drain order. -/
theorem publish_outputs_eq_drained (env : EncEnv) (msg : ImageMsg) (s : PubState) :
    (publish env msg s).outputs = (publish env msg s).drained.map (mkEnvelope msg) := by
  have hb : ∀ (ran : Bool) (s1 : PubState), (publishBody env msg ran s1).outputs
      = (publishBody env msg ran s1).drained.map (mkEnvelope msg) := by
    intro ran s1
    unfold publishBody
    cases h : loopSends env.sendResps <;> simp
  unfold publish
  by_cases h0 : s.ctx.height = 0
  · rw [if_pos h0]
    by_cases hd : env.descOk
    · by_cases hb2 : env.bitsPerPixel / 8 = 3 ∧ env.bitsPerPixel % 8 = 0
      · by_cases ho : env.openResult < 0
        · rw [if_neg (by simp [hd]), if_neg (by simp [hb2]), if_pos ho]
          rfl
        · rw [if_neg (by simp [hd]), if_neg (by simp [hb2]), if_neg ho]
          exact hb true _
      · rw [if_neg (by simp [hd]), if_pos hb2]
        rfl
    · rw [if_pos (by simp [hd])]
      rfl
  · rw [if_neg h0]
    exact hb false s

/-- C9: the call is sequential under one lock, so ordering is structural:
within a call, the published envelopes are the serializations of the
drained packets in drain order; the event trace of a call is its frame
submission followed by all of its emissions; and for a sequence of calls,
every event (hence every emission) of call `i` precedes every event of the
later calls — frame `i+1` is submitted only after frame `i`'s envelopes
have all been handed to the sink. -/
theorem C9_emission_order_preserved :
    (∀ (env : EncEnv) (msg : ImageMsg) (s : PubState),
      (publish env msg s).outputs = (publish env msg s).drained.map (mkEnvelope msg)) ∧
    (∀ (env : EncEnv) (msg : ImageMsg) (s : PubState) (pts : Int),
      (publish env msg s).submitted = some pts →
      publishEvents env msg s
        = PubEvent.submit pts :: (publish env msg s).outputs.map PubEvent.emit) ∧
    (∀ (e : EncEnv) (m : ImageMsg) (rest : List (EncEnv × ImageMsg)) (s : PubState),
      publishManyEvents ((e, m) :: rest) s
        = publishEvents e m s ++ publishManyEvents rest (publish e m s).state) ∧
    (∀ (e : EncEnv) (m : ImageMsg) (rest : List (EncEnv × ImageMsg)) (s : PubState),
      (publishMany ((e, m) :: rest) s).2
        = (publish e m s).outputs ++ (publishMany rest (publish e m s).state).2) := by
  refine ⟨publish_outputs_eq_drained, ?_, fun e m rest s => rfl, fun e m rest s => rfl⟩
  intro env msg s pts h
  unfold publishEvents
  rw [h]

/-- C9 witness: the event trace of a call on the configured state is the
submission (with `pts = 1`) followed by its emissions. -/
theorem C9_witness :
    publishEvents envOK msg64 confState
      = PubEvent.submit 1 :: (publish envOK msg64 confState).outputs.map PubEvent.emit :=
  C9_emission_order_preserved.2.1 envOK msg64 confState 1 (by decide)

/-- The submit-retry loop always makes at least one call before it can see
the `0` that ends it. -/
theorem loopSends_pos (l : List Int) : ∀ n : Nat, loopSends l = some n → 1 ≤ n := by
  induction l with
  | nil =>
    intro n h
    simp [loopSends] at h
  | cons r rs ih =>
    intro n h
    unfold loopSends at h
    by_cases hr : r = 0
    · rw [if_pos hr] at h
      simp at h
      omega
    · rw [if_neg hr] at h
      cases hl : loopSends rs with
      | none =>
        rw [hl] at h
        simp at h
      | some m =>
        rw [hl] at h
        simp at h
        omega

/-- The result of the unconditional first `avcodec_send_frame` call
(h265_publisher.cpp:241) is dead: `publish` behaves identically whatever
that call returned (`ret` is overwritten with `-1` at line 245). -/
theorem publish_ignores_sendFirst (env : EncEnv) (x : Int) (msg : ImageMsg) (s : PubState) :
    publish { env with sendFirst := x } msg s = publish env msg s := by
  cases env
  rfl

/-- C10: on a call with a configured session whose retry loop terminates
after `n` loop sends, `avcodec_send_frame` receives the same frame
`1 + n ≥ 2` times — once unconditionally with the result discarded
(`publish` is invariant in that result), then at least once more in the
loop — all with the one `pts` the call assigned; and the loop retries not
only on `EAGAIN` but equally on `AVERROR_EOF`, `EINVAL` and `ENOMEM`
(prepending any of them to the response sequence adds exactly one more
send). -/
theorem C10_frame_submitted_at_least_twice (env : EncEnv) (msg : ImageMsg)
    (s : PubState) (n : Nat)
    (hh : ¬s.ctx.height = 0) (hterm : loopSends env.sendResps = some n) :
    (publish env msg s).sendCalls = 1 + n ∧
    1 ≤ n ∧
    2 ≤ (publish env msg s).sendCalls ∧
    (publish env msg s).submitted = some s.frameCount ∧
    (∀ x : Int, publish { env with sendFirst := x } msg s = publish env msg s) ∧
    loopSends (AVERROR_EAGAIN :: env.sendResps) = some (n + 1) ∧
    loopSends (AVERROR_EOF :: env.sendResps) = some (n + 1) ∧
    loopSends (AVERROR_EINVAL :: env.sendResps) = some (n + 1) ∧
    loopSends (AVERROR_ENOMEM :: env.sendResps) = some (n + 1) := by
  have hp := loopSends_pos env.sendResps n hterm
  have hret : ∀ r : Int, ¬r = 0 → loopSends (r :: env.sendResps) = some (n + 1) := by
    intro r hr
    unfold loopSends
    rw [if_neg hr, hterm]
    rfl
  have heq := publish_configured env msg s hh
  obtain ⟨_, _, hsc⟩ := publishBody_drain env msg false s n hterm
  obtain ⟨_, _, _, _, _, _, _, hsub⟩ := publishBody_state_fields env msg false s
  refine ⟨by rw [heq]; exact hsc, hp, by rw [heq, hsc]; omega, by rw [heq]; exact hsub,
    fun x => publish_ignores_sendFirst env x msg s,
    hret _ (by decide), hret _ (by decide), hret _ (by decide), hret _ (by decide)⟩

/-- Oracle whose retry loop sees `AVERROR_EOF` then `0`: two loop sends. -/
def envC10 : EncEnv := { envOK with sendResps := [AVERROR_EOF, 0] }

/-- C10 witness: with responses `[AVERROR_EOF, 0]` the configured call
makes `1 + 2 = 3` send calls. -/
theorem C10_witness :
    (publish envC10 msg64 confState).sendCalls = 1 + 2 ∧
    2 ≤ (publish envC10 msg64 confState).sendCalls := by
  have h := C10_frame_submitted_at_least_twice envC10 msg64 confState 2
    (by decide) (by decide)
  exact ⟨h.1, h.2.2.1⟩

end H265ImageTransport
